import Mathlib

set_option maxHeartbeats 1000000

/-! Shallow embedding of `hammock/validators.py` (`ValueTransitionValidator`):
the value-transition rule evaluator, its allowed-target computation
(`_get_valid_value_transitions`) and the validation entry point (`__call__`). -/

/-- Python-style field values: the sentinel `None`, strings and integers.
Truthiness follows Python: `None`, the empty string and `0` are falsy. -/
inductive PyVal where
  | vnone
  | vstr (s : String)
  | vint (n : Int)
deriving DecidableEq

/-- Python truthiness of a value. -/
def PyVal.truthy : PyVal → Bool
  | PyVal.vnone => false
  | PyVal.vstr s => decide (s ≠ "")
  | PyVal.vint n => decide (n ≠ 0)

/-- A transition rule `(to_value, [from_values...])`, one entry of the
`value_transitions` argument. -/
abbrev TransitionRule := PyVal × List PyVal

/-- The `value_transitions` table: an ordered list of transition rules. -/
abbrev TransitionTable := List TransitionRule

/-- `dict(value_transitions).get(k)`: building a Python dict from a pair list
lets later pairs override earlier ones with the same key, so the lookup
returns the last matching pair's value. -/
def dictGet (table : TransitionTable) (k : PyVal) : Option (List PyVal) :=
  table.foldl (fun acc p => if p.1 = k then some p.2 else acc) none

/-- Keys of `dict(value_transitions)`, for the Python membership test
`current_value not in dict(self.value_transitions)`. -/
def dictKeys (table : TransitionTable) : List PyVal :=
  table.map Prod.fst

/-- State of a `ValueTransitionValidator` after `set_context`: the rule table,
the optional explicit `valid_values`, and the bound field's `choices` keys
(`none` when the field carries no `choices` attribute). -/
structure ValueTransitionValidator where
  value_transitions : TransitionTable
  valid_values : Option (List PyVal)
  field_choices : Option (List PyVal)
deriving DecidableEq

/-- Python falsiness of an optional value collection (`None` or empty). -/
def optFalsy : Option (List PyVal) → Bool
  | none => true
  | some l => l.isEmpty

/-- The value domain the validator ends up using: `self.valid_values` when
truthy, else the field's `choices` keys when truthy, else undetermined
(the `ImproperlyConfigured` case). -/
def effectiveDomain (v : ValueTransitionValidator) : Option (List PyVal) :=
  if optFalsy v.valid_values then
    if optFalsy v.field_choices then none else v.field_choices
  else v.valid_values

/-- The exceptions the validator can raise: `AttributeError` (reading the
current value from a `None` instance), `ImproperlyConfigured` (no value
domain), and `ValidationError` carrying the current value, the proposed value
and the allowed target list used to build the message. -/
inductive ValError where
  | attributeError
  | improperlyConfigured
  | validationError (current_value proposed : PyVal) (allowed : List PyVal)
deriving DecidableEq

/-- `_get_valid_value_transitions(current_value)`: terminal check against the
sources of the sentinel-keyed rule, then the unconstrained branch (value not a
rule target, or the sentinel itself) returning all domain values except the
current one plus `None`, else the scan collecting the targets of every rule
listing `current_value` among its sources. -/
def getValidValueTransitions (v : ValueTransitionValidator) (current_value : PyVal) :
    Except ValError (List PyVal) :=
  if current_value.truthy = true ∧
      current_value ∈ (dictGet v.value_transitions PyVal.vnone).getD [] then
    Except.ok []
  else if current_value ∉ dictKeys v.value_transitions ∨ current_value = PyVal.vnone then
    match effectiveDomain v with
    | none => Except.error ValError.improperlyConfigured
    | some dom =>
        Except.ok ((dom.filter fun choice => decide (choice ≠ current_value)) ++ [PyVal.vnone])
  else
    Except.ok ((v.value_transitions.filter fun t => decide (current_value ∈ t.2)).map Prod.fst)

/-- The allowed-target list `_get_valid_value_transitions` returns (the empty
list when it raises instead). -/
def allowedTargets (v : ValueTransitionValidator) (current_value : PyVal) : List PyVal :=
  match getValidValueTransitions v current_value with
  | Except.ok l => l
  | Except.error _ => []

/-- The last two branches of `_get_valid_value_transitions` (unconstrained and
rule-scan), without the leading terminal check. -/
def nonTerminalTransitions (v : ValueTransitionValidator) (current_value : PyVal) :
    Except ValError (List PyVal) :=
  if current_value ∉ dictKeys v.value_transitions ∨ current_value = PyVal.vnone then
    match effectiveDomain v with
    | none => Except.error ValError.improperlyConfigured
    | some dom =>
        Except.ok ((dom.filter fun choice => decide (choice ≠ current_value)) ++ [PyVal.vnone])
  else
    Except.ok ((v.value_transitions.filter fun t => decide (current_value ∈ t.2)).map Prod.fst)

/-- `__call__(value)`: read the current value off the serializer's instance
(`inst = none` models `self.instance is None`, where the attribute read
raises `AttributeError`), compute the allowed targets, and reject a truthy
proposed value that is not among them. -/
def callValidator (v : ValueTransitionValidator) (inst : Option PyVal) (value : PyVal) :
    Except ValError Unit :=
  match inst with
  | none => Except.error ValError.attributeError
  | some current_value =>
    match getValidValueTransitions v current_value with
    | Except.error e => Except.error e
    | Except.ok valid_value_transitions =>
      if value.truthy = true ∧ value ∉ valid_value_transitions then
        Except.error (ValError.validationError current_value value valid_value_transitions)
      else
        Except.ok ()

/-- The docstring's example validator: choices `start`/`middle`/`end` with the
table `[(start, [None]), (middle, [start]), (end, [start, middle]), (None, [end])]`. -/
def exampleValidator : ValueTransitionValidator :=
  { value_transitions :=
      [ (PyVal.vstr "start", [PyVal.vnone])
      , (PyVal.vstr "middle", [PyVal.vstr "start"])
      , (PyVal.vstr "end", [PyVal.vstr "start", PyVal.vstr "middle"])
      , (PyVal.vnone, [PyVal.vstr "end"]) ]
  , valid_values := some [PyVal.vstr "start", PyVal.vstr "middle", PyVal.vstr "end"]
  , field_choices := none }

/-! ### Helper lemmas -/

theorem dictGet_foldl_mem (k : PyVal) (s : List PyVal) :
    ∀ (table : TransitionTable) (acc : Option (List PyVal)),
      table.foldl (fun acc p => if p.1 = k then some p.2 else acc) acc = some s →
      (k, s) ∈ table ∨ acc = some s := by
  intro table
  induction table with
  | nil => intro acc h; exact Or.inr h
  | cons p ts ih =>
      intro acc h
      rcases ih _ h with hmem | hacc
      · exact Or.inl (List.mem_cons_of_mem _ hmem)
      · dsimp only at hacc
        by_cases hk : p.1 = k
        · rw [if_pos hk] at hacc
          refine Or.inl ?_
          have h2 : p.2 = s := by injection hacc
          have hps : p = (k, s) := by
            obtain ⟨a, b⟩ := p
            simp only at hk h2
            rw [hk, h2]
          rw [hps]
          exact List.mem_cons_self _ _
        · rw [if_neg hk] at hacc
          exact Or.inr hacc

theorem dictGet_mem {table : TransitionTable} {k : PyVal} {s : List PyVal}
    (h : dictGet table k = some s) : (k, s) ∈ table := by
  rcases dictGet_foldl_mem k s table none h with hmem | habs
  · exact hmem
  · exact absurd habs (by simp)

theorem getValidValueTransitions_error_eq {v : ValueTransitionValidator}
    {current_value : PyVal} {e : ValError}
    (h : getValidValueTransitions v current_value = Except.error e) :
    e = ValError.improperlyConfigured := by
  unfold getValidValueTransitions at h
  split at h
  · exact absurd h (by simp)
  · split at h
    · cases hdom : effectiveDomain v with
      | none => rw [hdom] at h; simpa using h.symm
      | some dom => rw [hdom] at h; exact absurd h (by simp)
    · exact absurd h (by simp)

theorem foldl_dictGet_skip (k : PyVal) :
    ∀ (t : TransitionTable) (acc : Option (List PyVal)), (∀ p ∈ t, p.1 ≠ k) →
      t.foldl (fun acc p => if p.1 = k then some p.2 else acc) acc = acc := by
  intro t
  induction t with
  | nil => intro acc _; rfl
  | cons q qs ih =>
      intro acc hall
      rw [List.foldl_cons]
      rw [if_neg (hall q (List.mem_cons_self _ _))]
      exact ih acc (fun p hp => hall p (List.mem_cons_of_mem _ hp))

/-! ### Concrete validators used by the individual claims -/

/-- Validator for claim C1's witness: empty table, explicit domain. -/
def w1 : ValueTransitionValidator := ⟨[], some [PyVal.vstr "a"], none⟩

/-- Validator for claim C2's counterexample: empty table, two-value domain. -/
def c2v : ValueTransitionValidator := ⟨[], some [PyVal.vstr "a", PyVal.vstr "b"], none⟩

/-- Validator for claim C2's witness: one unrelated rule, two-value domain. -/
def w2 : ValueTransitionValidator :=
  ⟨[(PyVal.vstr "x", [PyVal.vstr "y"])], some [PyVal.vstr "a", PyVal.vstr "b"], none⟩

/-- Validator for claim C3's counterexample: the empty string is a source of
the sentinel-keyed rule. -/
def c3v : ValueTransitionValidator :=
  ⟨[(PyVal.vnone, [PyVal.vstr ""])], some [PyVal.vstr "a"], none⟩

/-- Validator for claim C3's witness: a truthy source of the sentinel rule. -/
def w3 : ValueTransitionValidator :=
  ⟨[(PyVal.vnone, [PyVal.vstr "end"])], some [PyVal.vstr "go"], none⟩

/-- Validator for claim C4's counterexample: `b` is a source of both a real
rule and the sentinel-keyed rule. -/
def c4v : ValueTransitionValidator :=
  ⟨[(PyVal.vstr "a", [PyVal.vstr "b"]), (PyVal.vnone, [PyVal.vstr "b"])],
    some [PyVal.vstr "a", PyVal.vstr "b"], none⟩

/-- Validator for claim C4's witness: one rule from `s` to `m`. -/
def w4 : ValueTransitionValidator :=
  ⟨[(PyVal.vstr "m", [PyVal.vstr "s"])], some [PyVal.vstr "s", PyVal.vstr "m"], none⟩

/-- Validator for claim C5's counterexample: no domain determinable. -/
def c5v : ValueTransitionValidator := ⟨[], none, none⟩

/-- Validator for claim C5's witness. -/
def w5 : ValueTransitionValidator := ⟨[], some [PyVal.vstr "a"], none⟩

/-- Validator for claim C7's counterexample: two rules keyed by the sentinel. -/
def c7v : ValueTransitionValidator :=
  ⟨[(PyVal.vnone, [PyVal.vstr "a"]), (PyVal.vnone, [PyVal.vstr "b"])],
    some [PyVal.vstr "a", PyVal.vstr "b"], none⟩

/-- Validator for claim C8's counterexample: one rule, no domain determinable. -/
def c8v : ValueTransitionValidator := ⟨[(PyVal.vstr "a", [PyVal.vstr "b"])], none, none⟩

/-- Validator for claim C8's witness: empty table, no domain determinable. -/
def w8 : ValueTransitionValidator := ⟨[], none, none⟩

/-- Validator for claim C9's witness. -/
def w9 : ValueTransitionValidator := ⟨[], some [PyVal.vstr "a"], none⟩

/-- Validator for claim C10's witness: the empty string is a source of the
sentinel-keyed rule. -/
def w10 : ValueTransitionValidator :=
  ⟨[(PyVal.vnone, [PyVal.vstr ""])], some [PyVal.vstr "a"], none⟩

/-! ### Claim theorems -/

/-- Claim C1: `validate(current, proposed)` raises a `ValidationError` exactly
when the proposed value is truthy and not among the allowed targets of the
current value; the error carries the current value, the proposed value and the
allowed target list, and otherwise the call succeeds silently (given that the
allowed-target computation itself succeeds, which the claim presupposes by
referring to `allowed_targets(current_value)`). -/
theorem spec_C1 (v : ValueTransitionValidator) (current_value proposed : PyVal)
    (allowed : List PyVal)
    (h : getValidValueTransitions v current_value = Except.ok allowed) :
    callValidator v (some current_value) proposed =
      if proposed.truthy = true ∧ proposed ∉ allowed then
        Except.error (ValError.validationError current_value proposed allowed)
      else Except.ok () := by
  simp only [callValidator, h]

/-- Witness for claim C1: with an empty table and domain `{a}`, proposing `b`
from current `a` raises the `ValidationError` carrying `a`, `b` and the
allowed list `[None]`. -/
theorem spec_C1_witness :
    getValidValueTransitions w1 (PyVal.vstr "a") = Except.ok [PyVal.vnone] ∧
    callValidator w1 (some (PyVal.vstr "a")) (PyVal.vstr "b") =
      Except.error (ValError.validationError (PyVal.vstr "a") (PyVal.vstr "b") [PyVal.vnone]) :=
  ⟨rfl, spec_C1 w1 (PyVal.vstr "a") (PyVal.vstr "b") [PyVal.vnone] rfl⟩

/-- Claim C3 (amended): it is every truthy value listed among the sources of
the sentinel-keyed rule that is terminal, with an empty allowed-target list;
non-sentinel but falsy values are not treated as terminal. -/
theorem spec_C3 (v : ValueTransitionValidator) (current_value : PyVal)
    (htr : current_value.truthy = true)
    (hmem : current_value ∈ (dictGet v.value_transitions PyVal.vnone).getD []) :
    getValidValueTransitions v current_value = Except.ok [] := by
  unfold getValidValueTransitions
  rw [if_pos ⟨htr, hmem⟩]

/-- Witness for claim C3: `end` is truthy and a source of the sentinel rule,
so its allowed-target list is empty. -/
theorem spec_C3_witness :
    (PyVal.vstr "end").truthy = true ∧
    PyVal.vstr "end" ∈ (dictGet w3.value_transitions PyVal.vnone).getD [] ∧
    getValidValueTransitions w3 (PyVal.vstr "end") = Except.ok [] :=
  ⟨rfl, by decide, spec_C3 w3 (PyVal.vstr "end") rfl (by decide)⟩

/-- Counterexample to claim C3 as stated: the empty string is a non-sentinel
source of the sentinel-keyed rule, yet its allowed-target list is not empty
(the terminal check tests truthiness, and the empty string is falsy). -/
theorem spec_C3_counter :
    PyVal.vstr "" ≠ PyVal.vnone ∧
    PyVal.vstr "" ∈ (dictGet c3v.value_transitions PyVal.vnone).getD [] ∧
    getValidValueTransitions c3v (PyVal.vstr "") = Except.ok [PyVal.vstr "a", PyVal.vnone] :=
  ⟨by decide, by decide, rfl⟩

/-- Claim C5 (amended): with a falsy proposed value the transition check is
skipped, so the call never raises a `ValidationError`; it either succeeds or
raises `ImproperlyConfigured` from the allowed-target computation that runs
before the falsy-skip. -/
theorem spec_C5 (v : ValueTransitionValidator) (current_value value : PyVal)
    (hfal : value.truthy = false) :
    callValidator v (some current_value) value = Except.ok () ∨
      callValidator v (some current_value) value = Except.error ValError.improperlyConfigured := by
  cases hg : getValidValueTransitions v current_value with
  | error e =>
      right
      have he := getValidValueTransitions_error_eq hg
      subst he
      simp only [callValidator, hg]
  | ok l =>
      left
      simp only [callValidator, hg]
      have hcond : ¬(value.truthy = true ∧ value ∉ l) := by
        rintro ⟨h1, -⟩
        rw [hfal] at h1
        exact Bool.false_ne_true h1
      rw [if_neg hcond]

/-- Witness for claim C5: proposing the sentinel from current `a` with a
well-configured validator succeeds. -/
theorem spec_C5_witness :
    PyVal.vnone.truthy = false ∧
    (callValidator w5 (some (PyVal.vstr "a")) PyVal.vnone = Except.ok () ∨
      callValidator w5 (some (PyVal.vstr "a")) PyVal.vnone =
        Except.error ValError.improperlyConfigured) :=
  ⟨rfl, spec_C5 w5 (PyVal.vstr "a") PyVal.vnone rfl⟩

/-- Counterexample to claim C5 as stated: with no determinable domain the call
raises `ImproperlyConfigured` even though the proposed value is falsy, so
validation with a falsy proposed value is not unconditionally a no-op. -/
theorem spec_C5_counter :
    PyVal.vnone.truthy = false ∧
    callValidator c5v (some (PyVal.vstr "x")) PyVal.vnone =
      Except.error ValError.improperlyConfigured :=
  ⟨rfl, rfl⟩

/-- Claim C9: with a `None` serializer instance the attribute read of the
current value raises `AttributeError` (the creation case is not handled by
falling back to the sentinel), and with an instance present no
`AttributeError` is ever raised. -/
theorem spec_C9 (v : ValueTransitionValidator) (value : PyVal) :
    callValidator v none value = Except.error ValError.attributeError ∧
    ∀ current_value : PyVal,
      callValidator v (some current_value) value ≠ Except.error ValError.attributeError := by
  constructor
  · rfl
  · intro current_value hcontra
    cases hg : getValidValueTransitions v current_value with
    | error e =>
        have he := getValidValueTransitions_error_eq hg
        subst he
        simp only [callValidator, hg] at hcontra
        exact absurd hcontra (by simp)
    | ok l =>
        simp only [callValidator, hg] at hcontra
        by_cases hc : value.truthy = true ∧ value ∉ l
        · rw [if_pos hc] at hcontra
          exact absurd hcontra (by simp)
        · rw [if_neg hc] at hcontra
          exact absurd hcontra (by simp)

/-- Witness for claim C9: validating against a `None` instance raises
`AttributeError`. -/
theorem spec_C9_witness :
    callValidator w9 none (PyVal.vstr "p") = Except.error ValError.attributeError :=
  (spec_C9 w9 (PyVal.vstr "p")).1

/-- Claim C2 (amended): a value appearing in no rule (neither as target nor as
source) is unconstrained, and its allowed-target list is the effective domain
minus the value itself with the sentinel appended — the sentinel is always a
member of the returned list in this case. -/
theorem spec_C2 (v : ValueTransitionValidator) (dom : List PyVal) (cv : PyVal)
    (hdom : effectiveDomain v = some dom)
    (_hcv : cv ∈ dom)
    (hnot : ∀ p ∈ v.value_transitions, p.1 ≠ cv ∧ cv ∉ p.2) :
    getValidValueTransitions v cv =
      Except.ok ((dom.filter fun choice => decide (choice ≠ cv)) ++ [PyVal.vnone]) := by
  have hterm : ¬(cv.truthy = true ∧ cv ∈ (dictGet v.value_transitions PyVal.vnone).getD []) := by
    rintro ⟨-, hmem⟩
    cases hdg : dictGet v.value_transitions PyVal.vnone with
    | none => rw [hdg] at hmem; simp at hmem
    | some s =>
        rw [hdg] at hmem
        simp only [Option.getD_some] at hmem
        exact (hnot _ (dictGet_mem hdg)).2 hmem
  have hkey : cv ∉ dictKeys v.value_transitions := by
    intro hk
    unfold dictKeys at hk
    rcases List.mem_map.mp hk with ⟨p, hp, hfst⟩
    exact (hnot p hp).1 hfst
  unfold getValidValueTransitions
  rw [if_neg hterm, if_pos (Or.inl hkey), hdom]

/-- Witness for claim C2: with domain `{a, b}` and a single unrelated rule,
the unconstrained value `a` gets `{b}` plus the sentinel. -/
theorem spec_C2_witness :
    effectiveDomain w2 = some [PyVal.vstr "a", PyVal.vstr "b"] ∧
    PyVal.vstr "a" ∈ [PyVal.vstr "a", PyVal.vstr "b"] ∧
    getValidValueTransitions w2 (PyVal.vstr "a") =
      Except.ok (([PyVal.vstr "a", PyVal.vstr "b"].filter
          fun choice => decide (choice ≠ PyVal.vstr "a")) ++ [PyVal.vnone]) :=
  ⟨rfl, by decide,
    spec_C2 w2 [PyVal.vstr "a", PyVal.vstr "b"] (PyVal.vstr "a") rfl (by decide) (by decide)⟩

/-- Counterexample to claim C2 as stated: for the unconstrained value `a` over
domain `{a, b}` the returned allowed-target list is `[b, None]`, which contains
the sentinel even though the sentinel is not a domain member, so the list is
not `ValueDomain` minus the current value. -/
theorem spec_C2_counter :
    getValidValueTransitions c2v (PyVal.vstr "a") =
      Except.ok [PyVal.vstr "b", PyVal.vnone] ∧
    PyVal.vnone ∈ [PyVal.vstr "b", PyVal.vnone] ∧
    PyVal.vnone ∉ [PyVal.vstr "a", PyVal.vstr "b"] ∧
    PyVal.vstr "a" ∈ [PyVal.vstr "a", PyVal.vstr "b"] :=
  ⟨rfl, by decide, by decide, by decide⟩

/-- Claim C4 (amended): a rule's target is among `allowed_targets(s)` for each
of its sources `s`, provided `s` is not terminal (truthy and a source of the
sentinel-keyed rule) and the target lies in the effective domain or is the
sentinel; every rule of the fully scanned table contributes. -/
theorem spec_C4 (v : ValueTransitionValidator) (target : PyVal) (sources : List PyVal)
    (s : PyVal) (dom : List PyVal)
    (hrule : (target, sources) ∈ v.value_transitions)
    (hs : s ∈ sources)
    (hterm : ¬(s.truthy = true ∧ s ∈ (dictGet v.value_transitions PyVal.vnone).getD []))
    (hdom : effectiveDomain v = some dom)
    (htd : target ∈ dom ∨ target = PyVal.vnone) :
    target ∈ allowedTargets v s := by
  unfold allowedTargets getValidValueTransitions
  rw [if_neg hterm]
  by_cases h2 : s ∉ dictKeys v.value_transitions ∨ s = PyVal.vnone
  · rw [if_pos h2, hdom]
    show target ∈ (dom.filter fun choice => decide (choice ≠ s)) ++ [PyVal.vnone]
    by_cases hts : target = PyVal.vnone
    · subst hts
      exact List.mem_append_right _ (List.mem_singleton.mpr rfl)
    · rcases htd with htd | htd
      · have hne : target ≠ s := by
          rcases h2 with h2 | h2
          · intro hts2
            subst hts2
            exact h2 (List.mem_map_of_mem Prod.fst hrule)
          · rw [h2]; exact hts
        apply List.mem_append_left
        rw [List.mem_filter]
        exact ⟨htd, decide_eq_true hne⟩
      · exact absurd htd hts
  · rw [if_neg h2]
    show target ∈ (v.value_transitions.filter fun t => decide (s ∈ t.2)).map Prod.fst
    have hf : (target, sources) ∈ v.value_transitions.filter fun t => decide (s ∈ t.2) := by
      rw [List.mem_filter]
      exact ⟨hrule, decide_eq_true hs⟩
    exact List.mem_map_of_mem Prod.fst hf

/-- Witness for claim C4: with the single rule `(m, [s])`, `m` is among the
allowed targets of `s`. -/
theorem spec_C4_witness :
    (PyVal.vstr "m", [PyVal.vstr "s"]) ∈ w4.value_transitions ∧
    PyVal.vstr "m" ∈ allowedTargets w4 (PyVal.vstr "s") :=
  ⟨by decide,
    spec_C4 w4 (PyVal.vstr "m") [PyVal.vstr "s"] (PyVal.vstr "s")
      [PyVal.vstr "s", PyVal.vstr "m"] (by decide) (by decide) (by decide) rfl (by decide)⟩

/-- Counterexample to claim C4 as stated: `b` is a source of the rule targeting
`a`, yet `a` is not among the allowed targets of `b`, because `b` is also a
source of the sentinel-keyed rule and the terminal check empties the result. -/
theorem spec_C4_counter :
    (PyVal.vstr "a", [PyVal.vstr "b"]) ∈ c4v.value_transitions ∧
    PyVal.vstr "b" ∈ [PyVal.vstr "b"] ∧
    allowedTargets c4v (PyVal.vstr "b") = [] ∧
    PyVal.vstr "a" ∉ allowedTargets c4v (PyVal.vstr "b") :=
  ⟨by decide, by decide, rfl, by decide⟩

/-- Claim C6 (amended): in the docstring's example, a sentinel current value
takes the unconstrained branch, so its allowed targets are all three choices
plus the sentinel, and proposing either `start` or `middle` from a `None`
current value succeeds. -/
theorem spec_C6 :
    getValidValueTransitions exampleValidator PyVal.vnone =
      Except.ok [PyVal.vstr "start", PyVal.vstr "middle", PyVal.vstr "end", PyVal.vnone] ∧
    callValidator exampleValidator (some PyVal.vnone) (PyVal.vstr "start") = Except.ok () ∧
    callValidator exampleValidator (some PyVal.vnone) (PyVal.vstr "middle") = Except.ok () :=
  ⟨rfl, rfl, rfl⟩

/-- Counterexample to claim C6 as stated: the allowed-target list of the
sentinel is not `{start}` but all choices plus the sentinel, and proposing
`middle` from a `None` current value succeeds instead of failing. -/
theorem spec_C6_counter :
    getValidValueTransitions exampleValidator PyVal.vnone =
      Except.ok [PyVal.vstr "start", PyVal.vstr "middle", PyVal.vstr "end", PyVal.vnone] ∧
    PyVal.vstr "middle" ∈
      [PyVal.vstr "start", PyVal.vstr "middle", PyVal.vstr "end", PyVal.vnone] ∧
    callValidator exampleValidator (some PyVal.vnone) (PyVal.vstr "middle") = Except.ok () :=
  ⟨rfl, by decide, rfl⟩

/-- Claim C7 (amended): when several rules share a target value, the dict
conversion makes the lookup by target return the LAST matching entry of the
table, not the first. -/
theorem spec_C7 (t1 t2 : TransitionTable) (k : PyVal) (s : List PyVal)
    (hlast : ∀ p ∈ t2, p.1 ≠ k) :
    dictGet (t1 ++ (k, s) :: t2) k = some s := by
  unfold dictGet
  rw [List.foldl_append, List.foldl_cons, if_pos rfl]
  exact foldl_dictGet_skip k t2 (some s) hlast

/-- Witness for claim C7: with two sentinel-keyed rules, the lookup returns
the second rule's sources. -/
theorem spec_C7_witness :
    dictGet [(PyVal.vnone, [PyVal.vstr "a"]), (PyVal.vnone, [PyVal.vstr "b"])] PyVal.vnone =
      some [PyVal.vstr "b"] :=
  spec_C7 [(PyVal.vnone, [PyVal.vstr "a"])] [] PyVal.vnone [PyVal.vstr "b"] (by decide)

/-- Counterexample to claim C7 as stated: with sentinel-keyed rules
`(None, [a])` then `(None, [b])`, first-match lookup would make `a` terminal
and `b` unconstrained, but the evaluator does the opposite: `a` is
unconstrained and `b` is terminal, because the later entry wins. -/
theorem spec_C7_counter :
    getValidValueTransitions c7v (PyVal.vstr "a") =
      Except.ok [PyVal.vstr "b", PyVal.vnone] ∧
    getValidValueTransitions c7v (PyVal.vstr "b") = Except.ok [] :=
  ⟨rfl, rfl⟩

/-- Claim C8 (amended): when the value domain cannot be determined, the
configuration error is raised lazily during validation, and exactly when the
unconstrained branch is reached — the current value is neither terminal nor a
listed rule target (or is the sentinel); terminal and rule-scan current values
never trigger it. -/
theorem spec_C8 (v : ValueTransitionValidator) (current_value : PyVal)
    (hdom : effectiveDomain v = none) :
    getValidValueTransitions v current_value = Except.error ValError.improperlyConfigured ↔
      ¬(current_value.truthy = true ∧
          current_value ∈ (dictGet v.value_transitions PyVal.vnone).getD []) ∧
        (current_value ∉ dictKeys v.value_transitions ∨ current_value = PyVal.vnone) := by
  unfold getValidValueTransitions
  by_cases h1 : current_value.truthy = true ∧
      current_value ∈ (dictGet v.value_transitions PyVal.vnone).getD []
  · rw [if_pos h1]
    simp [h1]
  · rw [if_neg h1]
    by_cases h2 : current_value ∉ dictKeys v.value_transitions ∨ current_value = PyVal.vnone
    · rw [if_pos h2, hdom]
      simp [h1, h2]
    · rw [if_neg h2]
      simp [h1, h2]

/-- Witness for claim C8: with an empty table and no determinable domain,
validating current value `x` raises the configuration error. -/
theorem spec_C8_witness :
    getValidValueTransitions w8 (PyVal.vstr "x") =
      Except.error ValError.improperlyConfigured :=
  (spec_C8 w8 (PyVal.vstr "x") rfl).mpr ⟨by decide, by decide⟩

/-- Counterexample to claim C8 as stated: with no determinable domain, the
current value `a` (a listed rule target) is validated through the rule-scan
branch without any configuration error, so the error is not raised regardless
of the current value. -/
theorem spec_C8_counter :
    effectiveDomain c8v = none ∧
    getValidValueTransitions c8v (PyVal.vstr "a") = Except.ok [] :=
  ⟨rfl, rfl⟩

/-- Claim C10: the terminal check tests Python truthiness, so a falsy
non-sentinel current value listed among the sentinel rule's sources skips the
terminal branch; the result is computed by the unconstrained or rule-scan
branches and is never the terminal empty list. -/
theorem spec_C10 (v : ValueTransitionValidator) (current_value : PyVal)
    (hfal : current_value.truthy = false)
    (_hns : current_value ≠ PyVal.vnone)
    (hmem : current_value ∈ (dictGet v.value_transitions PyVal.vnone).getD []) :
    getValidValueTransitions v current_value = nonTerminalTransitions v current_value ∧
      getValidValueTransitions v current_value ≠ Except.ok [] := by
  have hcond : ¬(current_value.truthy = true ∧
      current_value ∈ (dictGet v.value_transitions PyVal.vnone).getD []) := by
    rintro ⟨h1, -⟩
    rw [hfal] at h1
    exact Bool.false_ne_true h1
  constructor
  · unfold getValidValueTransitions nonTerminalTransitions
    rw [if_neg hcond]
  · unfold getValidValueTransitions
    rw [if_neg hcond]
    by_cases h2 : current_value ∉ dictKeys v.value_transitions ∨ current_value = PyVal.vnone
    · rw [if_pos h2]
      cases hdomv : effectiveDomain v with
      | none => simp
      | some dom => simp
    · rw [if_neg h2]
      obtain ⟨s, hs⟩ : ∃ s, dictGet v.value_transitions PyVal.vnone = some s := by
        cases hdg : dictGet v.value_transitions PyVal.vnone with
        | none => rw [hdg] at hmem; simp at hmem
        | some s => exact ⟨s, rfl⟩
      rw [hs] at hmem
      simp only [Option.getD_some] at hmem
      have hrulemem : (PyVal.vnone, s) ∈ v.value_transitions := dictGet_mem hs
      intro hcontra
      have hl : (v.value_transitions.filter fun t =>
          decide (current_value ∈ t.2)).map Prod.fst = [] := by
        injection hcontra
      have hfmem : (PyVal.vnone, s) ∈ v.value_transitions.filter fun t =>
          decide (current_value ∈ t.2) := by
        rw [List.mem_filter]
        exact ⟨hrulemem, decide_eq_true hmem⟩
      have hin := List.mem_map_of_mem Prod.fst hfmem
      rw [hl] at hin
      exact absurd hin (List.not_mem_nil _)

/-- Witness for claim C10: the falsy empty string is a source of the sentinel
rule, yet its allowed-target computation takes the non-terminal branches and
does not return the terminal empty list. -/
theorem spec_C10_witness :
    (PyVal.vstr "").truthy = false ∧
    PyVal.vstr "" ∈ (dictGet w10.value_transitions PyVal.vnone).getD [] ∧
    getValidValueTransitions w10 (PyVal.vstr "") = nonTerminalTransitions w10 (PyVal.vstr "") :=
  ⟨rfl, by decide, (spec_C10 w10 (PyVal.vstr "") rfl (by decide) (by decide)).1⟩
